import Mathlib

/-!
Shallow embedding of `examples/plot_charge_resolution.py` (ctapipe):
the `ChargeResolutionPlotter` component and the `ChargeResolutionViewer`
driver.  Python/numpy/matplotlib state is modelled explicitly:

* numeric data sequences are `List ℚ` (exact rationals standing for the
  float arrays; the float literals 0.9 and 1.1 are the exact rationals
  9/10 and 11/10);
* the synthetic log-spaced grid of `plot_limit_curves` lives in `ℝ`,
  since its points are powers `10 ^ (a + i·d)` with irrational exponents;
* a matplotlib figure is a record of the two panels' artists, scales,
  limits, labels and the legend bookkeeping lists;
* a raised Python exception is an `Option String` / error value returned
  alongside the (possibly partially mutated) object state, in the order
  the source mutates it;
* the filesystem seen by `os.path.exists` / `os.makedirs` is the list of
  directory paths that exist.
-/

namespace ChargeRes

/-! ### os.path helpers (posixpath semantics) -/

/-- `os.path.basename`: everything after the last `'/'` (posixpath). -/
def basenameStr (p : String) : String :=
  String.mk ((p.toList.reverse.takeWhile (fun c => !decide (c = '/'))).reverse)

/-- `os.path.dirname` (posixpath): the prefix up to the last `'/'`;
trailing slashes are stripped unless the prefix is all slashes. -/
def dirnameStr (p : String) : String :=
  let headRev := p.toList.reverse.dropWhile (fun c => !decide (c = '/'))
  if headRev.isEmpty then ""
  else if headRev.all (fun c => decide (c = '/')) then String.mk headRev.reverse
  else String.mk ((headRev.dropWhile (fun c => decide (c = '/'))).reverse)

/-- Index of the last occurrence of `c`, as in Python `str.rfind` (but
`none` instead of `-1` when absent). -/
def rfindChar (c : Char) : List Char → Option Nat
  | [] => none
  | a :: rest =>
    match rfindChar c rest with
    | some i => some (i + 1)
    | none => if a = c then some 0 else none

/-- The root part of `os.path.splitext`: drop the extension starting at
the last `'.'`, provided that dot lies after the last `'/'` and some
character strictly between them is not a dot (so leading dots of the
basename never start an extension). -/
def splitextRoot (p : String) : String :=
  let cs := p.toList
  let sepIndex : Int := match rfindChar '/' cs with | some i => (i : Int) | none => -1
  let dotIndex : Int := match rfindChar '.' cs with | some i => (i : Int) | none => -1
  if sepIndex < dotIndex then
    let start := (sepIndex + 1).toNat
    let stop := dotIndex.toNat
    if ((cs.drop start).take (stop - start)).any (fun c => !decide (c = '.')) then
      String.mk (cs.take stop)
    else p
  else p

/-- `os.path.expanduser` for the two common forms `"~"` and `"~/rest"`
(the `~user` form would consult the OS user database, outside this
embedding, and is left unchanged like a path with no tilde).  `home` is
the value of `$HOME`, assumed without a trailing slash. -/
def expanduserStr (home p : String) : String :=
  match p.toList with
  | ['~'] => home
  | '~' :: '/' :: rest => home ++ String.mk ('/' :: rest)
  | _ => p

/-- `os.path.exists` restricted to the directories this program touches:
`fs` is the list of existing directories, and the empty path never
exists on a POSIX system. -/
def pathExists (fs : List String) (d : String) : Bool :=
  !decide (d = "") && decide (d ∈ fs)

/-! ### numpy boolean-mask indexing -/

/-- Keep the elements of `l` at the `true` positions of `mask`
(the value of numpy `l[mask]` when the lengths agree). -/
def maskKeep : List Bool → List ℚ → List ℚ
  | b :: ms, v :: vs => if b then v :: maskKeep ms vs else maskKeep ms vs
  | _, _ => []

/-- numpy boolean indexing `l[mask]`: an `IndexError` (here `none`) when
the mask length does not match the array length. -/
def boolIndex (mask : List Bool) (l : List ℚ) : Option (List ℚ) :=
  if l.length = mask.length then some (maskKeep mask l) else none

/-! ### figure state -/

inductive Scale
  | linear
  | log
deriving DecidableEq, Repr

/-- One `ax.errorbar(x_v, res_v, yerr=error_v, marker='x', linestyle="None")`
artist collection: the rendered points of one dataset on one panel. -/
structure ErrorbarSeries where
  xs : List ℚ
  ys : List ℚ
  yerrs : List ℚ
deriving DecidableEq, Repr

/-- One `ax.plot(x, y, color, ls)` line artist (reference curves live on
the real-valued synthetic grid). -/
structure LineSeries where
  xs : List ℝ
  ys : List ℝ
  color : String
  dashed : Bool

/-- A matplotlib artist handle as stored in `legend_handles`. -/
inductive Handle
  | errorbarContainer (xs ys yerrs : List ℚ)
  | line2D (xs ys : List ℝ) (color : String)

/-- The mutable state of one `ChargeResolutionPlotter` (its traitlet
configuration plus its figure: panels `ax_l`/`ax_r` and the legend
lists).  Fresh axes start with linear scales, no limits set, empty
labels and no title. -/
structure PlotterState where
  output_path : Option String
  max_pe : Int
  linear_x : Bool
  linear_y : Bool
  ax_l_errorbars : List ErrorbarSeries
  ax_r_errorbars : List ErrorbarSeries
  ax_l_lines : List LineSeries
  ax_r_lines : List LineSeries
  legend_handles : List Handle
  legend_labels : List String
  ax_l_xscale : Scale
  ax_l_yscale : Scale
  ax_r_xscale : Scale
  ax_r_yscale : Scale
  ax_l_xlabel : String
  ax_l_ylabel : String
  ax_r_xlabel : String
  ax_r_ylabel : String
  legend_built : Option (List Handle × List String)
  suptitle : Option String
  ax_l_xlim : Option (ℚ × ℚ)
  ax_r_xlim : Option (ℚ × ℚ)

/-- The error raised by `ChargeResolutionPlotter.__init__` when
`output_path` is `None` (a `ValueError`, logged then re-raised). -/
inductive InitError
  | valueError
deriving DecidableEq, Repr

/-- `ChargeResolutionPlotter.__init__`: traitlet values are taken from
the configuration; a missing output path is logged
(`'Please specify an output path'`) and the `ValueError` re-raised, so
construction only succeeds with an output path.  On success the figure
and both panels are created fresh and the legend lists start empty. -/
def initPlotter (output_path : Option String) (max_pe : Int)
    (linear_x linear_y : Bool) : Except InitError PlotterState :=
  match output_path with
  | none => .error InitError.valueError
  | some p =>
    .ok { output_path := some p
          max_pe := max_pe
          linear_x := linear_x
          linear_y := linear_y
          ax_l_errorbars := []
          ax_r_errorbars := []
          ax_l_lines := []
          ax_r_lines := []
          legend_handles := []
          legend_labels := []
          ax_l_xscale := Scale.linear
          ax_l_yscale := Scale.linear
          ax_r_xscale := Scale.linear
          ax_r_yscale := Scale.linear
          ax_l_xlabel := ""
          ax_l_ylabel := ""
          ax_r_xlabel := ""
          ax_r_ylabel := ""
          legend_built := none
          suptitle := none
          ax_l_xlim := none
          ax_r_xlim := none }

/-! ### plot_chargeres / plot_scaled_chargeres -/

/-- `ChargeResolutionPlotter.plot_chargeres(name, x, res, error)`.
Returns the object state after the call together with the raised
exception, if any.  `valid = (x <= self.max_pe)` is a boolean mask of
`x`'s length; numpy raises `IndexError` at `res[valid]` or
`error[valid]` when lengths disagree, before `errorbar` renders anything
and before the legend lists are touched, so on error the state is the
caller's state unchanged. -/
def plot_chargeres (st : PlotterState) (name : String)
    (x res error : List ℚ) : PlotterState × Option String :=
  let valid := x.map (fun v => decide (v ≤ (st.max_pe : ℚ)))
  match boolIndex valid x with
  | none => (st, some "IndexError")
  | some x_v =>
    match boolIndex valid res with
    | none => (st, some "IndexError")
    | some res_v =>
      match boolIndex valid error with
      | none => (st, some "IndexError")
      | some error_v =>
        let eb_l := Handle.errorbarContainer x_v res_v error_v
        ({ st with
            ax_l_errorbars := st.ax_l_errorbars ++ [⟨x_v, res_v, error_v⟩]
            legend_handles := st.legend_handles ++ [eb_l]
            legend_labels := st.legend_labels ++ [splitextRoot name] },
         none)

/-- `ChargeResolutionPlotter.plot_scaled_chargeres(x, res, error)`:
same filtering, renders on the right panel, no legend entry. -/
def plot_scaled_chargeres (st : PlotterState)
    (x res error : List ℚ) : PlotterState × Option String :=
  let valid := x.map (fun v => decide (v ≤ (st.max_pe : ℚ)))
  match boolIndex valid x with
  | none => (st, some "IndexError")
  | some x_v =>
    match boolIndex valid res with
    | none => (st, some "IndexError")
    | some res_v =>
      match boolIndex valid error with
      | none => (st, some "IndexError")
      | some error_v =>
        ({ st with ax_r_errorbars := st.ax_r_errorbars ++ [⟨x_v, res_v, error_v⟩] },
         none)

/-! ### plot_limit_curves -/

/-- The synthetic grid `np.logspace(log10(0.9), log10(max_pe * 1.1), 100)`:
100 points `10 ^ (a + i·(b−a)/99)` with `a = log10 0.9`,
`b = log10 (max_pe·1.1)` (numpy's `linspace` includes both endpoints). -/
noncomputable def limitGridList (max_pe : Int) : List ℝ :=
  let a : ℝ := Real.logb 10 0.9
  let b : ℝ := Real.logb 10 ((max_pe : ℝ) * 1.1)
  (List.range 100).map (fun i : ℕ => (10 : ℝ) ^ (a + (i : ℝ) * ((b - a) / 99)))

/-- The grid construction including `math.log10`'s domain: for
`max_pe ≤ 0` the argument `max_pe * 1.1` is nonpositive and `log10`
raises `ValueError: math domain error` (`none`); `0 < max_pe` over the
integers is exactly `0 < max_pe * 1.1` over the reals. -/
noncomputable def limitGrid (max_pe : Int) : Option (List ℝ) :=
  if 0 < max_pe then some (limitGridList max_pe) else none

/-- Element-wise division of two plotted curves (numpy `/` on aligned
arrays). -/
noncomputable def zipDiv (a b : List ℝ) : List ℝ :=
  List.zipWith (fun u v => u / v) a b

/-- `ChargeResolutionPlotter.plot_limit_curves()`.  The reference
functions `requirement`, `goal`, `poisson` belong to the external
`ChargeResolutionCalculator` (out of scope per the spec) and are
parameters; they are evaluated element-wise on the synthetic grid.
Three dashed lines go on the left panel, their ratios to `goal` on the
right panel, and exactly the three handles with labels
"Requirement", "Goal", "Poisson" are appended to the legend lists.
When the grid itself cannot be built (`max_pe ≤ 0`) the call raises
before mutating anything. -/
noncomputable def plot_limit_curves (req goal poisson : ℝ → ℝ)
    (st : PlotterState) : PlotterState × Option String :=
  match limitGrid st.max_pe with
  | none => (st, some "math domain error")
  | some x =>
    let requirement := x.map req
    let goalv := x.map goal
    let poissonv := x.map poisson
    let r_p := Handle.line2D x requirement "r"
    let g_p := Handle.line2D x goalv "g"
    let p_p := Handle.line2D x poissonv "0.75"
    ({ st with
        ax_l_lines := st.ax_l_lines ++
          [⟨x, requirement, "r", true⟩, ⟨x, goalv, "g", true⟩,
           ⟨x, poissonv, "0.75", true⟩]
        ax_r_lines := st.ax_r_lines ++
          [⟨x, zipDiv requirement goalv, "r", false⟩,
           ⟨x, zipDiv goalv goalv, "g", false⟩,
           ⟨x, zipDiv poissonv goalv, "0.75", true⟩]
        legend_handles := st.legend_handles ++ [r_p, g_p, p_p]
        legend_labels := st.legend_labels ++ ["Requirement", "Goal", "Poisson"] },
     none)

/-! ### save -/

inductive SaveError
  /-- `basename(None)` raises `TypeError` at the `suptitle` line. -/
  | typeError
  /-- `makedirs('')` raises `FileNotFoundError`. -/
  | fileNotFoundError (path : String)
deriving DecidableEq, Repr

/-- The terminal side effect of `save`. -/
inductive SaveAction
  /-- `plt.show()`: interactive display. -/
  | shown
  /-- `fig.savefig(path, bbox_inches='tight')`. -/
  | savedFig (path : String)
deriving DecidableEq, Repr

/-- Result of one `save()` call: the mutated plotter state, the
filesystem after it, the terminal action if one was reached, and the
raised exception if any. -/
structure SaveOutcome where
  state : PlotterState
  fs : List String
  action : Option SaveAction
  err : Option SaveError

/-- `ChargeResolutionPlotter.save()`, mutation by mutation in source
order: axis scales (x log on both panels unless `linear_x`; y log on
the left panel only, unless `linear_y`; the right panel's y scale is
never touched), axis labels, the legend built from the accumulated
lists, the figure title from the output file's base name
(`basename(None)` raises `TypeError` when there is no output path),
the x-limits `[0.9, max_pe·1.1]` on both panels with the right panel
overridden to `[0.9, 2000·1.1]` when `max_pe > 2000`, and finally
persistence: `expanduser` the path, create the parent directory when it
does not exist (`makedirs('')` raises `FileNotFoundError`), and write
the figure.  There is no finalized/terminal flag anywhere in the
object. -/
def save (st : PlotterState) (fs : List String) (home : String) : SaveOutcome :=
  let st1 := if st.linear_x then st
             else { st with ax_l_xscale := Scale.log, ax_r_xscale := Scale.log }
  let st2 := if st1.linear_y then st1 else { st1 with ax_l_yscale := Scale.log }
  let st3 := { st2 with
                ax_l_xlabel := "True Charge $Q_T$ (p.e.)"
                ax_l_ylabel := "Charge Resolution"
                ax_r_xlabel := "True Charge $Q_T$ (p.e.)"
                ax_r_ylabel := "Charge Resolution/Goal"
                legend_built := some (st2.legend_handles, st2.legend_labels) }
  match st3.output_path with
  | none => { state := st3, fs := fs, action := none, err := some SaveError.typeError }
  | some p0 =>
    let st4 := { st3 with suptitle := some (splitextRoot (basenameStr p0)) }
    let st5 := { st4 with
                  ax_l_xlim := some (0.9, (st4.max_pe : ℚ) * 1.1)
                  ax_r_xlim := some (0.9, (st4.max_pe : ℚ) * 1.1) }
    let st6 := if 2000 < st5.max_pe
               then { st5 with ax_r_xlim := some (0.9, 2000 * 1.1) }
               else st5
    let p := expanduserStr home p0
    let st7 := { st6 with output_path := some p }
    let d := dirnameStr p
    if pathExists fs d then
      { state := st7, fs := fs, action := some (SaveAction.savedFig p), err := none }
    else if d = "" then
      { state := st7, fs := fs, action := none,
        err := some (SaveError.fileNotFoundError d) }
    else
      { state := st7, fs := fs ++ [d], action := some (SaveAction.savedFig p),
        err := none }

/-! ### the driver (ChargeResolutionViewer) -/

/-- One plotter call made by the driver. -/
inductive DriverEvent
  | limitCurves
  | chargeres (name : String)
  | scaledChargeres (name : String)
  | saveCall
deriving DecidableEq, Repr

/-- The calls `ChargeResolutionViewer.start()` makes, in order: first
`plot_limit_curves()`, then for each input file `plot_chargeres` and
`plot_scaled_chargeres` with the file's base name. -/
def startTrace (input_files : List String) : List DriverEvent :=
  DriverEvent.limitCurves ::
    input_files.flatMap (fun fp =>
      [DriverEvent.chargeres (basenameStr fp),
       DriverEvent.scaledChargeres (basenameStr fp)])

/-- One full run of the tool: `start()` then `finish()` (which calls
`self.plotter.save()`). -/
def runTrace (input_files : List String) : List DriverEvent :=
  startTrace input_files ++ [DriverEvent.saveCall]

/-! ### lemmas on boolean-mask indexing -/

theorem maskKeep_map_self (f : ℚ → Bool) (x : List ℚ) :
    maskKeep (x.map f) x = x.filter f := by
  induction x with
  | nil => rfl
  | cons a t ih =>
    simp only [List.map_cons, maskKeep, List.filter_cons]
    cases h : f a <;> simp [ih]

theorem maskKeep_zip_lockstep (f : ℚ → Bool) (x : List ℚ) :
    ∀ r e : List ℚ, x.length = r.length → x.length = e.length →
      (maskKeep (x.map f) x).zip ((maskKeep (x.map f) r).zip (maskKeep (x.map f) e))
        = (x.zip (r.zip e)).filter (fun t => f t.1) := by
  induction x with
  | nil => intro r e _ _; rfl
  | cons a t ih =>
    intro r e hr he
    cases r with
    | nil => simp at hr
    | cons b rt =>
      cases e with
      | nil => simp at he
      | cons c et =>
        have hr' : t.length = rt.length := by simpa using hr
        have he' : t.length = et.length := by simpa using he
        simp only [List.map_cons, maskKeep, List.zip_cons_cons, List.filter_cons]
        cases h : f a with
        | true => simp [ih rt et hr' he']
        | false => simp [ih rt et hr' he']

theorem boolIndex_of_length_eq (mask : List Bool) (l : List ℚ)
    (h : l.length = mask.length) :
    boolIndex mask l = some (maskKeep mask l) := by
  simp [boolIndex, h]

theorem boolIndex_of_length_ne (mask : List Bool) (l : List ℚ)
    (h : ¬ l.length = mask.length) :
    boolIndex mask l = none := by
  simp [boolIndex, h]

/-- A concrete freshly-constructed plotter (the state `__init__` builds
for `output_path = "out/plot.png"`, `max_pe = 2000`, log axes), used to
instantiate theorems on concrete inputs. -/
def samplePlotter : PlotterState :=
  { output_path := some "out/plot.png"
    max_pe := 2000
    linear_x := false
    linear_y := false
    ax_l_errorbars := []
    ax_r_errorbars := []
    ax_l_lines := []
    ax_r_lines := []
    legend_handles := []
    legend_labels := []
    ax_l_xscale := Scale.linear
    ax_l_yscale := Scale.linear
    ax_r_xscale := Scale.linear
    ax_r_yscale := Scale.linear
    ax_l_xlabel := ""
    ax_l_ylabel := ""
    ax_r_xlabel := ""
    ax_r_ylabel := ""
    legend_built := none
    suptitle := none
    ax_l_xlim := none
    ax_r_xlim := none }

/-! ### C1 / C5: plot_chargeres -/

/-- C1: for equal-length sequences `x`, `res`, `error`, `plot_chargeres`
raises nothing, renders exactly one new errorbar series on panel 1, and
that series is the lock-step filtering of the three sequences at the
index positions with `x[i] ≤ max_pe`, in original order; in particular
its x-values are exactly `x.filter (· ≤ max_pe)` and no rendered point
has `x > max_pe`. -/
theorem plot_chargeres_lockstep (st : PlotterState) (name : String)
    (x res error : List ℚ)
    (hr : x.length = res.length) (he : x.length = error.length) :
    (plot_chargeres st name x res error).2 = none ∧
    ∃ s : ErrorbarSeries,
      (plot_chargeres st name x res error).1.ax_l_errorbars
          = st.ax_l_errorbars ++ [s] ∧
      s.xs = x.filter (fun v => decide (v ≤ (st.max_pe : ℚ))) ∧
      s.xs.zip (s.ys.zip s.yerrs)
          = (x.zip (res.zip error)).filter
              (fun t => decide (t.1 ≤ (st.max_pe : ℚ))) ∧
      (∀ q ∈ s.xs, q ≤ (st.max_pe : ℚ)) := by
  have hx := boolIndex_of_length_eq
    (x.map (fun v => decide (v ≤ (st.max_pe : ℚ)))) x (by simp)
  have hres := boolIndex_of_length_eq
    (x.map (fun v => decide (v ≤ (st.max_pe : ℚ)))) res (by simp [hr.symm])
  have herr := boolIndex_of_length_eq
    (x.map (fun v => decide (v ≤ (st.max_pe : ℚ)))) error (by simp [he.symm])
  refine ⟨?_,
    ⟨maskKeep (x.map (fun v => decide (v ≤ (st.max_pe : ℚ)))) x,
     maskKeep (x.map (fun v => decide (v ≤ (st.max_pe : ℚ)))) res,
     maskKeep (x.map (fun v => decide (v ≤ (st.max_pe : ℚ)))) error⟩,
    ?_, ?_, ?_, ?_⟩
  · simp only [plot_chargeres, hx, hres, herr]
  · simp only [plot_chargeres, hx, hres, herr]
  · exact maskKeep_map_self _ x
  · exact maskKeep_zip_lockstep _ x res error hr he
  · intro q hq
    rw [maskKeep_map_self] at hq
    have hq' : q ∈ x.filter (fun v => decide (v ≤ (st.max_pe : ℚ))) := hq
    simpa using List.of_mem_filter hq'

/-- C1 witness: the spec's round-trip scenario `x = [10, 100, 3000]`
with `max_pe = 2000` renders exactly the two points at 10 and 100. -/
theorem plot_chargeres_lockstep_witness :
    ([(10 : ℚ), 100, 3000].length = [(1 : ℚ)/2, 1/5, 1/20].length) ∧
    ([(10 : ℚ), 100, 3000].length = [(1 : ℚ)/100, 1/500, 1/2000].length) ∧
    ((plot_chargeres samplePlotter "run001.pkl" [10, 100, 3000] [1/2, 1/5, 1/20]
        [1/100, 1/500, 1/2000]).2 = none ∧
     ∃ s : ErrorbarSeries,
       (plot_chargeres samplePlotter "run001.pkl" [10, 100, 3000] [1/2, 1/5, 1/20]
           [1/100, 1/500, 1/2000]).1.ax_l_errorbars
           = samplePlotter.ax_l_errorbars ++ [s] ∧
       s.xs = [(10 : ℚ), 100, 3000].filter
           (fun v => decide (v ≤ (samplePlotter.max_pe : ℚ))) ∧
       s.xs.zip (s.ys.zip s.yerrs)
           = ([(10 : ℚ), 100, 3000].zip
               ([(1 : ℚ)/2, 1/5, 1/20].zip [(1 : ℚ)/100, 1/500, 1/2000])).filter
               (fun t => decide (t.1 ≤ (samplePlotter.max_pe : ℚ))) ∧
       (∀ q ∈ s.xs, q ≤ (samplePlotter.max_pe : ℚ))) :=
  ⟨rfl, rfl,
   plot_chargeres_lockstep samplePlotter "run001.pkl" _ _ _ rfl rfl⟩

/-- C5: when the sequence lengths disagree, `plot_chargeres` raises the
numpy `IndexError` at the boolean-mask step, before any rendering: the
whole plotter state — panels and legend lists included — is exactly the
state before the call. -/
theorem plot_chargeres_shape_mismatch (st : PlotterState) (name : String)
    (x res error : List ℚ)
    (h : ¬ (x.length = res.length ∧ x.length = error.length)) :
    (plot_chargeres st name x res error).2 = some "IndexError" ∧
    (plot_chargeres st name x res error).1 = st := by
  have hx := boolIndex_of_length_eq
    (x.map (fun v => decide (v ≤ (st.max_pe : ℚ)))) x (by simp)
  by_cases hr : x.length = res.length
  · have he : ¬ x.length = error.length := fun he => h ⟨hr, he⟩
    have hres := boolIndex_of_length_eq
      (x.map (fun v => decide (v ≤ (st.max_pe : ℚ)))) res (by simp [hr.symm])
    have herr := boolIndex_of_length_ne
      (x.map (fun v => decide (v ≤ (st.max_pe : ℚ)))) error
      (by simp; exact fun hh => he hh.symm)
    simp [plot_chargeres, hx, hres, herr]
  · have hres := boolIndex_of_length_ne
      (x.map (fun v => decide (v ≤ (st.max_pe : ℚ)))) res
      (by simp; exact fun hh => hr hh.symm)
    simp [plot_chargeres, hx, hres]

/-- C5 witness: a concrete mismatched call (`res` shorter than `x`)
raises and leaves the state untouched. -/
theorem plot_chargeres_shape_mismatch_witness :
    (¬ (([(1 : ℚ), 2, 3].length = [(1 : ℚ)/2].length) ∧
        ([(1 : ℚ), 2, 3].length = [(1 : ℚ)/100, 1/200, 1/300].length))) ∧
    ((plot_chargeres samplePlotter "a.pkl" [1, 2, 3] [1/2]
        [1/100, 1/200, 1/300]).2 = some "IndexError" ∧
     (plot_chargeres samplePlotter "a.pkl" [1, 2, 3] [1/2]
        [1/100, 1/200, 1/300]).1 = samplePlotter) :=
  ⟨by decide,
   plot_chargeres_shape_mismatch samplePlotter "a.pkl" _ _ _ (by decide)⟩

/-! ### path lemmas -/

theorem expanduserStr_default (home p : String)
    (h1 : p.toList ≠ ['~'])
    (h2 : ∀ rest, p.toList ≠ '~' :: '/' :: rest) :
    expanduserStr home p = p := by
  unfold expanduserStr
  split
  · rename_i heq
    exact absurd heq h1
  · rename_i rest heq
    exact absurd heq (h2 rest)
  · rfl

theorem expanduserStr_eq_self (home p : String)
    (h : p.toList.head? ≠ some '~') : expanduserStr home p = p := by
  apply expanduserStr_default
  · intro hq; rw [hq] at h; simp at h
  · intro rest hq; rw [hq] at h; simp at h

theorem toList_append (a b : String) : (a ++ b).toList = a.toList ++ b.toList := by
  simp [String.toList, String.data_append]

theorem expanduserStr_idem (home p : String)
    (hh : home.toList.head? ≠ some '~') :
    expanduserStr home (expanduserStr home p) = expanduserStr home p := by
  by_cases hp : p.toList.head? = some '~'
  · rcases hl : p.toList with _ | ⟨c, rest⟩
    · rw [hl] at hp; simp at hp
    · have hc : c = '~' := by rw [hl] at hp; simpa using hp
      subst hc
      rcases rest with _ | ⟨c2, rest2⟩
      · have h1 : expanduserStr home p = home := by
          unfold expanduserStr; rw [hl]; rfl
        rw [h1, expanduserStr_eq_self home home hh]
      · by_cases hc2 : c2 = '/'
        · subst hc2
          have h1 : expanduserStr home p = home ++ String.mk ('/' :: rest2) := by
            unfold expanduserStr; rw [hl]; rfl
          rw [h1]
          apply expanduserStr_eq_self
          rw [toList_append]
          rcases hh2 : home.toList with _ | ⟨hc3, hrest⟩
          · simp [String.mk]
          · rw [hh2] at hh
            simpa using hh
        · have h1 : expanduserStr home p = p := by
            apply expanduserStr_default
            · rw [hl]; simp
            · intro r; rw [hl]; simp [hc2]
          rw [h1, h1]
  · rw [expanduserStr_eq_self home p hp, expanduserStr_eq_self home p hp]

theorem dirnameStr_eq_empty (p : String) (h : ¬ '/' ∈ p.toList) :
    dirnameStr p = "" := by
  have hnil : p.toList.reverse.dropWhile (fun c => !decide (c = '/')) = [] := by
    rw [List.dropWhile_eq_nil_iff]
    intro c hc
    have hcp : c ∈ p.toList := List.mem_reverse.1 hc
    have hne : ¬ (c = '/') := fun e => h (e ▸ hcp)
    simp [hne]
  unfold dirnameStr
  rw [hnil]
  rfl

/-! ### lemmas on save -/

theorem save_err_of_no_path (st : PlotterState) (fs : List String)
    (home : String) (hp : st.output_path = none) :
    (save st fs home).err = some SaveError.typeError ∧
    (save st fs home).action = none := by
  cases hlx : st.linear_x <;> cases hly : st.linear_y <;>
    simp [save, hlx, hly, hp]

theorem save_state_output_path (st : PlotterState) (fs : List String)
    (home : String) (p0 : String) (hp : st.output_path = some p0) :
    (save st fs home).state.output_path = some (expanduserStr home p0) := by
  cases hlx : st.linear_x <;> cases hly : st.linear_y <;>
    by_cases hm : 2000 < st.max_pe <;>
      simp [save, hlx, hly, hm, hp] <;>
      (try split) <;> (try split) <;> rfl

theorem save_ok_of_dir (st : PlotterState) (fs : List String)
    (home : String) (p0 : String) (hp : st.output_path = some p0)
    (h : pathExists fs (dirnameStr (expanduserStr home p0)) = true ∨
         ¬ dirnameStr (expanduserStr home p0) = "") :
    (save st fs home).err = none ∧
    (save st fs home).action
        = some (SaveAction.savedFig (expanduserStr home p0)) ∧
    pathExists (save st fs home).fs (dirnameStr (expanduserStr home p0))
        = true := by
  cases hlx : st.linear_x <;> cases hly : st.linear_y <;>
    by_cases hm : 2000 < st.max_pe <;>
    by_cases hex : pathExists fs (dirnameStr (expanduserStr home p0)) = true <;>
    first
      | (simp [save, hlx, hly, hm, hp, hex]; done)
      | (have hd : ¬ dirnameStr (expanduserStr home p0) = "" := by
           rcases h with h | h
           · exact absurd h hex
           · exact h
         have hmem : pathExists (fs ++ [dirnameStr (expanduserStr home p0)])
             (dirnameStr (expanduserStr home p0)) = true := by
           simp [pathExists, hd]
         simp [save, hlx, hly, hm, hp, hex, hd, hmem])

theorem save_err_of_empty_dir (st : PlotterState) (fs : List String)
    (home : String) (p0 : String) (hp : st.output_path = some p0)
    (hd : dirnameStr (expanduserStr home p0) = "") :
    (save st fs home).err = some (SaveError.fileNotFoundError "") ∧
    (save st fs home).action = none := by
  have hex0 : pathExists fs "" = false := by
    simp [pathExists]
  cases hlx : st.linear_x <;> cases hly : st.linear_y <;>
    by_cases hm : 2000 < st.max_pe <;>
      simp [save, hlx, hly, hm, hp, hd, hex0]

theorem save_not_shown (st : PlotterState) (fs : List String) (home : String)
    (p0 : String) (hp : st.output_path = some p0) :
    (save st fs home).action ≠ some SaveAction.shown ∧
    (save st fs home).err ≠ some SaveError.typeError := by
  by_cases hd : dirnameStr (expanduserStr home p0) = ""
  · obtain ⟨he, ha⟩ := save_err_of_empty_dir st fs home p0 hp hd
    rw [he, ha]
    exact ⟨by simp, by simp⟩
  · obtain ⟨he, ha, -⟩ := save_ok_of_dir st fs home p0 hp (Or.inr hd)
    rw [he, ha]
    exact ⟨by simp, by simp⟩

/-! ### C2: x-axis display limits -/

/-- C2: once `save` runs on a plotter with a configured output path,
panel 1's x-limit is always `[0.9, max_pe·1.1]`, and panel 2's x-limit
is `[0.9, max_pe·1.1]` for `max_pe ≤ 2000` (the boundary 2000 included,
unclamped) and the clamped `[0.9, 2000·1.1]` exactly when
`max_pe > 2000`. -/
theorem save_xlimits (st : PlotterState) (fs : List String) (home : String)
    (p0 : String) (hp : st.output_path = some p0) :
    (save st fs home).state.ax_l_xlim
        = some (0.9, (st.max_pe : ℚ) * 1.1) ∧
    (save st fs home).state.ax_r_xlim
        = some (0.9, if st.max_pe ≤ 2000 then (st.max_pe : ℚ) * 1.1
                     else 2000 * 1.1) := by
  refine ⟨?_, ?_⟩ <;>
    (by_cases hm : 2000 < st.max_pe
     · have hm' : ¬ st.max_pe ≤ 2000 := not_le.2 hm
       cases hlx : st.linear_x <;> cases hly : st.linear_y <;>
         simp [save, hlx, hly, hm, hm', hp] <;>
         (try split) <;> (try split) <;> rfl
     · have hm' : st.max_pe ≤ 2000 := not_lt.1 hm
       cases hlx : st.linear_x <;> cases hly : st.linear_y <;>
         simp [save, hlx, hly, hm, hm', hp] <;>
         (try split) <;> (try split) <;> rfl)

/-- C2 witness: the fresh plotter with the boundary value
`max_pe = 2000` — panel 2 is not clamped there. -/
theorem save_xlimits_witness :
    samplePlotter.output_path = some "out/plot.png" ∧
    ((save samplePlotter [] "/home/user").state.ax_l_xlim
        = some (0.9, (samplePlotter.max_pe : ℚ) * 1.1) ∧
     (save samplePlotter [] "/home/user").state.ax_r_xlim
        = some (0.9, if samplePlotter.max_pe ≤ 2000
                     then (samplePlotter.max_pe : ℚ) * 1.1
                     else 2000 * 1.1)) :=
  ⟨rfl, save_xlimits samplePlotter [] "/home/user" "out/plot.png" rfl⟩

/-! ### C7: axis scale policy -/

/-- C7 counterexample: with the default `linear_y = false`, `save` sets
panel 1's y-axis to log but leaves panel 2's y-axis linear — panel 2's
y-scale does not follow the `linear_y` flag as the claim states. -/
theorem save_panel2_yscale_cex :
    samplePlotter.linear_y = false ∧
    (save samplePlotter [] "/home/user").state.ax_l_yscale = Scale.log ∧
    ¬ (save samplePlotter [] "/home/user").state.ax_r_yscale
        = (if samplePlotter.linear_y then Scale.linear else Scale.log) := by
  refine ⟨rfl, ?_, ?_⟩ <;> decide

/-- C7 amended: on a plotter whose four axes are at the default linear
scale, `save` sets both panels' x-axes to log exactly when `linear_x`
is false (unchanged otherwise), sets panel 1's y-axis to log exactly
when `linear_y` is false, and never touches panel 2's y-axis: it stays
linear regardless of `linear_y`. -/
theorem save_scales (st : PlotterState) (fs : List String) (home : String)
    (hlx0 : st.ax_l_xscale = Scale.linear) (hrx0 : st.ax_r_xscale = Scale.linear)
    (hly0 : st.ax_l_yscale = Scale.linear) (hry0 : st.ax_r_yscale = Scale.linear) :
    (save st fs home).state.ax_l_xscale
        = (if st.linear_x then Scale.linear else Scale.log) ∧
    (save st fs home).state.ax_r_xscale
        = (if st.linear_x then Scale.linear else Scale.log) ∧
    (save st fs home).state.ax_l_yscale
        = (if st.linear_y then Scale.linear else Scale.log) ∧
    (save st fs home).state.ax_r_yscale = Scale.linear := by
  refine ⟨?_, ?_, ?_, ?_⟩ <;>
    (cases hop : st.output_path <;> cases hlx : st.linear_x <;>
      cases hly : st.linear_y <;> by_cases hm : 2000 < st.max_pe <;>
        simp [save, hop, hlx, hly, hm, hlx0, hrx0, hly0, hry0] <;>
        (try split) <;> (try split) <;> rfl)

/-- C7 amended witness: the fresh default plotter (`linear_x = false`,
`linear_y = false`): both x-axes and panel 1's y-axis become log,
panel 2's y-axis stays linear. -/
theorem save_scales_witness :
    samplePlotter.ax_l_xscale = Scale.linear ∧
    samplePlotter.ax_r_xscale = Scale.linear ∧
    samplePlotter.ax_l_yscale = Scale.linear ∧
    samplePlotter.ax_r_yscale = Scale.linear ∧
    ((save samplePlotter [] "/home/user").state.ax_l_xscale
        = (if samplePlotter.linear_x then Scale.linear else Scale.log) ∧
     (save samplePlotter [] "/home/user").state.ax_r_xscale
        = (if samplePlotter.linear_x then Scale.linear else Scale.log) ∧
     (save samplePlotter [] "/home/user").state.ax_l_yscale
        = (if samplePlotter.linear_y then Scale.linear else Scale.log) ∧
     (save samplePlotter [] "/home/user").state.ax_r_yscale = Scale.linear) :=
  ⟨rfl, rfl, rfl, rfl,
   save_scales samplePlotter [] "/home/user" rfl rfl rfl rfl⟩

/-! ### C3: no terminal state after save -/

/-- C3 counterexample: on a concrete fresh plotter the first `save`
succeeds, and a second `save` on the resulting instance raises nothing
— it silently re-renders and writes the same file again, so there is no
terminal-state error. -/
theorem save_no_terminal_state_cex :
    (save samplePlotter [] "/home/user").err = none ∧
    (save (save samplePlotter [] "/home/user").state
        (save samplePlotter [] "/home/user").fs "/home/user").err = none ∧
    (save (save samplePlotter [] "/home/user").state
        (save samplePlotter [] "/home/user").fs "/home/user").action
      = some (SaveAction.savedFig "out/plot.png") := by
  refine ⟨?_, ?_, ?_⟩ <;> decide

/-- C3 amended: the plotter has no finalized state: whenever one `save`
call succeeds, a second call on the same instance succeeds as well and
performs the same write again (for any `$HOME` not itself starting with
a tilde). -/
theorem save_twice_ok (st : PlotterState) (fs : List String) (home : String)
    (hh : home.toList.head? ≠ some '~')
    (h1 : (save st fs home).err = none) :
    (save (save st fs home).state (save st fs home).fs home).err = none ∧
    (save (save st fs home).state (save st fs home).fs home).action
        = (save st fs home).action := by
  cases hop : st.output_path with
  | none =>
    have h := (save_err_of_no_path st fs home hop).1
    rw [h] at h1
    exact absurd h1 (by simp)
  | some p0 =>
    have hdisj : pathExists fs (dirnameStr (expanduserStr home p0)) = true ∨
        ¬ dirnameStr (expanduserStr home p0) = "" := by
      by_cases hex : pathExists fs (dirnameStr (expanduserStr home p0)) = true
      · exact Or.inl hex
      · by_cases hd : dirnameStr (expanduserStr home p0) = ""
        · have h := (save_err_of_empty_dir st fs home p0 hop hd).1
          rw [h] at h1
          exact absurd h1 (by simp)
        · exact Or.inr hd
    obtain ⟨herr1, hact1, hfs1⟩ := save_ok_of_dir st fs home p0 hop hdisj
    have hsp : (save st fs home).state.output_path
        = some (expanduserStr home p0) :=
      save_state_output_path st fs home p0 hop
    have hidem := expanduserStr_idem home p0 hh
    have hdisj2 : pathExists (save st fs home).fs
        (dirnameStr (expanduserStr home (expanduserStr home p0))) = true ∨
        ¬ dirnameStr (expanduserStr home (expanduserStr home p0)) = "" := by
      rw [hidem]
      exact Or.inl hfs1
    obtain ⟨herr2, hact2, -⟩ := save_ok_of_dir (save st fs home).state
      (save st fs home).fs home (expanduserStr home p0) hsp hdisj2
    refine ⟨herr2, ?_⟩
    rw [hact2, hact1, hidem]

/-- C3 amended witness: the concrete successful first save, then the
second save succeeding with the same action. -/
theorem save_twice_ok_witness :
    ("/home/user".toList.head? ≠ some '~') ∧
    ((save samplePlotter [] "/home/user").err = none) ∧
    ((save (save samplePlotter [] "/home/user").state
        (save samplePlotter [] "/home/user").fs "/home/user").err = none ∧
     (save (save samplePlotter [] "/home/user").state
        (save samplePlotter [] "/home/user").fs "/home/user").action
        = (save samplePlotter [] "/home/user").action) :=
  ⟨by decide, by decide,
   save_twice_ok samplePlotter [] "/home/user" (by decide) (by decide)⟩

/-! ### C8: missing output path is fatal at construction -/

/-- C8: constructing the plotter with no output path raises the logged
`ValueError` (no silent fallback); a successful construction stores the
configured path, and `save` on such an instance never reaches the
interactive-display branch (`plt.show`) nor the missing-path
`TypeError`. -/
theorem init_missing_output_path (op : Option String) (max_pe : Int)
    (lx ly : Bool) (st : PlotterState) (fs : List String) (home : String) :
    initPlotter none max_pe lx ly = .error InitError.valueError ∧
    (initPlotter op max_pe lx ly = .ok st →
      ∃ p, op = some p ∧ st.output_path = some p ∧
        (save st fs home).action ≠ some SaveAction.shown ∧
        (save st fs home).err ≠ some SaveError.typeError) := by
  refine ⟨rfl, ?_⟩
  intro hok
  cases op with
  | none => simp [initPlotter] at hok
  | some p =>
    simp only [initPlotter, Except.ok.injEq] at hok
    have hst : st.output_path = some p := by rw [← hok]
    exact ⟨p, rfl, hst, save_not_shown st fs home p hst⟩

/-- C8 witness: concrete failing construction and a concrete successful
one whose `save` writes a file rather than showing a window. -/
theorem init_missing_output_path_witness :
    (initPlotter none 2000 false false = .error InitError.valueError) ∧
    (initPlotter (some "out/plot.png") 2000 false false = .ok samplePlotter) ∧
    (∃ p, (some "out/plot.png" : Option String) = some p ∧
      samplePlotter.output_path = some p ∧
      (save samplePlotter [] "/home/user").action ≠ some SaveAction.shown ∧
      (save samplePlotter [] "/home/user").err ≠ some SaveError.typeError) :=
  ⟨(init_missing_output_path (some "out/plot.png") 2000 false false
      samplePlotter [] "/home/user").1,
   rfl,
   (init_missing_output_path (some "out/plot.png") 2000 false false
      samplePlotter [] "/home/user").2 rfl⟩

/-! ### C10: bare filename output path -/

/-- C10: when the configured output path has no directory component (a
bare filename, not starting with a tilde), `save` fails at directory
creation — `dirname` yields the empty string, which never exists, and
`makedirs('')` raises `FileNotFoundError` — before the figure is ever
written: a parent directory component is an implicit precondition for
successful persistence. -/
theorem save_bare_filename (st : PlotterState) (fs : List String)
    (home : String) (p : String) (hp : st.output_path = some p)
    (hslash : ¬ '/' ∈ p.toList) (htilde : p.toList.head? ≠ some '~') :
    (save st fs home).err = some (SaveError.fileNotFoundError "") ∧
    (save st fs home).action = none := by
  have hep : expanduserStr home p = p := expanduserStr_eq_self home p htilde
  have hd : dirnameStr (expanduserStr home p) = "" := by
    rw [hep]
    exact dirnameStr_eq_empty p hslash
  exact save_err_of_empty_dir st fs home p hp hd

/-- C10 witness: the bare filename `"plot.png"`. -/
theorem save_bare_filename_witness :
    ({ samplePlotter with output_path := some "plot.png" }
        : PlotterState).output_path = some "plot.png" ∧
    (¬ '/' ∈ "plot.png".toList) ∧
    ("plot.png".toList.head? ≠ some '~') ∧
    ((save { samplePlotter with output_path := some "plot.png" } []
        "/home/user").err = some (SaveError.fileNotFoundError "") ∧
     (save { samplePlotter with output_path := some "plot.png" } []
        "/home/user").action = none) :=
  ⟨rfl, by decide, by decide,
   save_bare_filename { samplePlotter with output_path := some "plot.png" }
     [] "/home/user" "plot.png" rfl (by decide) (by decide)⟩

/-! ### C4: legend entries of plot_limit_curves -/

/-- C4: every drawing call to `plot_limit_curves` appends exactly three
legend labels, `"Requirement"`, `"Goal"`, `"Poisson"` in that fixed
order, after whatever labels were already present, together with
exactly three handles; the pre-existing legend entries are untouched. -/
theorem plot_limit_curves_legend (req goalf poissonf : ℝ → ℝ)
    (st : PlotterState) (h : 0 < st.max_pe) :
    (plot_limit_curves req goalf poissonf st).2 = none ∧
    (plot_limit_curves req goalf poissonf st).1.legend_labels
        = st.legend_labels ++ ["Requirement", "Goal", "Poisson"] ∧
    ∃ hr hg hp : Handle,
      (plot_limit_curves req goalf poissonf st).1.legend_handles
        = st.legend_handles ++ [hr, hg, hp] := by
  have hgrid : limitGrid st.max_pe = some (limitGridList st.max_pe) := by
    simp [limitGrid, h]
  refine ⟨?_, ?_, ?_⟩
  · simp [plot_limit_curves, hgrid]
  · simp [plot_limit_curves, hgrid]
  · exact ⟨Handle.line2D (limitGridList st.max_pe)
        ((limitGridList st.max_pe).map req) "r",
      Handle.line2D (limitGridList st.max_pe)
        ((limitGridList st.max_pe).map goalf) "g",
      Handle.line2D (limitGridList st.max_pe)
        ((limitGridList st.max_pe).map poissonf) "0.75",
      by simp [plot_limit_curves, hgrid]⟩

/-- C4 witness: the fresh plotter with any reference functions. -/
theorem plot_limit_curves_legend_witness :
    (0 < samplePlotter.max_pe) ∧
    ((plot_limit_curves (fun _ => 0) (fun _ => 0) (fun _ => 0)
        samplePlotter).2 = none ∧
     (plot_limit_curves (fun _ => 0) (fun _ => 0) (fun _ => 0)
        samplePlotter).1.legend_labels
        = samplePlotter.legend_labels ++ ["Requirement", "Goal", "Poisson"] ∧
     ∃ hr hg hp : Handle,
       (plot_limit_curves (fun _ => 0) (fun _ => 0) (fun _ => 0)
          samplePlotter).1.legend_handles
          = samplePlotter.legend_handles ++ [hr, hg, hp]) :=
  ⟨by decide,
   plot_limit_curves_legend (fun _ => 0) (fun _ => 0) (fun _ => 0)
     samplePlotter (by decide)⟩

/-! ### C6: the synthetic reference grid -/

/-- C6: whenever `plot_limit_curves` can build its synthetic grid (the
`log10` domain: positive `max_pe`), the grid has exactly 100 points, is
strictly increasing, starts at exactly 0.9 and ends at exactly
`max_pe·1.1` — log-spaced between those endpoints, in exact real
arithmetic standing for the float computation within tolerance. -/
theorem limitGrid_spec (max_pe : Int) (h : 0 < max_pe) :
    limitGrid max_pe = some (limitGridList max_pe) ∧
    (limitGridList max_pe).length = 100 ∧
    (limitGridList max_pe).Pairwise (· < ·) ∧
    (limitGridList max_pe).head? = some 0.9 ∧
    (limitGridList max_pe).getLast? = some ((max_pe : ℝ) * 1.1) := by
  have h1 : (1 : ℝ) ≤ (max_pe : ℝ) := by exact_mod_cast h
  have hendpos : (0 : ℝ) < (max_pe : ℝ) * 1.1 := by nlinarith
  have h09 : (0.9 : ℝ) < (max_pe : ℝ) * 1.1 := by nlinarith
  have hab : Real.logb 10 0.9 < Real.logb 10 ((max_pe : ℝ) * 1.1) :=
    Real.logb_lt_logb (by norm_num) (by norm_num) h09
  have hd : (0 : ℝ) <
      (Real.logb 10 ((max_pe : ℝ) * 1.1) - Real.logb 10 0.9) / 99 :=
    div_pos (sub_pos.2 hab) (by norm_num)
  refine ⟨by simp [limitGrid, h], by simp [limitGridList], ?_, ?_, ?_⟩
  · unfold limitGridList
    refine (List.pairwise_lt_range 100).map _ ?_
    intro i j hij
    refine (Real.rpow_lt_rpow_left_iff (by norm_num : (1:ℝ) < 10)).2 ?_
    have hij' : (i : ℝ) < (j : ℝ) := by exact_mod_cast hij
    have := mul_lt_mul_of_pos_right hij' hd
    linarith
  · unfold limitGridList
    rw [List.head?_map]
    have hr0 : (List.range 100).head? = some 0 := rfl
    rw [hr0]
    simp only [Option.map_some']
    have harg : Real.logb 10 0.9 + ((0 : ℕ) : ℝ) *
        ((Real.logb 10 ((max_pe : ℝ) * 1.1) - Real.logb 10 0.9) / 99)
        = Real.logb 10 0.9 := by push_cast; ring
    rw [harg, Real.rpow_logb (by norm_num) (by norm_num) (by norm_num)]
  · unfold limitGridList
    have h100 : List.range 100 = List.range 99 ++ [99] := by
      have := List.range_succ (n := 99)
      simpa using this
    rw [h100, List.map_append, List.map_singleton, List.getLast?_concat]
    have harg : Real.logb 10 0.9 + ((99 : ℕ) : ℝ) *
        ((Real.logb 10 ((max_pe : ℝ) * 1.1) - Real.logb 10 0.9) / 99)
        = Real.logb 10 ((max_pe : ℝ) * 1.1) := by push_cast; ring
    rw [harg, Real.rpow_logb (by norm_num) (by norm_num) hendpos]

/-- C6 witness: the default configuration `max_pe = 2000`. -/
theorem limitGrid_spec_witness :
    (0 < (2000 : Int)) ∧
    (limitGrid 2000 = some (limitGridList 2000) ∧
     (limitGridList 2000).length = 100 ∧
     (limitGridList 2000).Pairwise (· < ·) ∧
     (limitGridList 2000).head? = some 0.9 ∧
     (limitGridList 2000).getLast? = some (((2000 : Int) : ℝ) * 1.1)) :=
  ⟨by decide, limitGrid_spec 2000 (by decide)⟩

/-! ### C9: call order of the driver -/

/-- C9 counterexample: with one input file the driver's very first call
is `plot_limit_curves`, and a dataset plot follows it — the limit
curves are drawn before, not after, the dataset plots. -/
theorem runTrace_order_cex :
    (runTrace ["run001.pkl"]).head? = some DriverEvent.limitCurves ∧
    (runTrace ["run001.pkl"])[1]?
        = some (DriverEvent.chargeres "run001.pkl") ∧
    ¬ (∀ i j : ℕ,
        (runTrace ["run001.pkl"])[i]? = some DriverEvent.limitCurves →
        (∃ n, (runTrace ["run001.pkl"])[j]? = some (DriverEvent.chargeres n)) →
        j < i) := by
  refine ⟨rfl, rfl, ?_⟩
  intro hcl
  have := hcl 0 1 rfl ⟨"run001.pkl", rfl⟩
  omega

/-- C9 amended: in a run of the driver, `plot_limit_curves` is the
FIRST call, then `plot_chargeres` and `plot_scaled_chargeres` follow
for each input file in order, and `save` (finalize) is the last call of
the run. -/
theorem runTrace_order (input_files : List String) :
    runTrace input_files
      = DriverEvent.limitCurves ::
          (input_files.flatMap (fun fp =>
            [DriverEvent.chargeres (basenameStr fp),
             DriverEvent.scaledChargeres (basenameStr fp)])
           ++ [DriverEvent.saveCall]) ∧
    (runTrace input_files).getLast? = some DriverEvent.saveCall := by
  constructor
  · simp [runTrace, startTrace]
  · rw [runTrace, List.getLast?_concat]

end ChargeRes
